import Mathlib

/-!
Shallow embedding of `deployment-examples/pdf_parser_example.py`.

The script is sequential glue code around three third-party library call
sites (simple PDF parse, LlamaParse, vector-index query).  We model the
external world by an environment `Env` (which libraries are importable,
which environment variables are set, and what each library call returns),
and each Python function as a pure Lean function returning the list of
observable events it produces (console prints, library calls, and an
entry marker for each of the script's own four functions) together with
its return value.  An uncaught Python exception is modelled by
`Except PyExn`.
-/

namespace PdfParserExample

/-- A document as returned by the parsing libraries: page text plus
metadata.  Python checks `if doc.metadata:`; an absent or empty (falsy)
metadata dict is modelled by `none`, a truthy one by `some` of its
printed form. -/
structure Doc where
  text : String
  metadata : Option String
deriving Repr, DecidableEq

/-- A source node of a query response (`node.node.text` and `node.score`).
The score is kept as its already-formatted `:.3f` string, since the claims
never compute with it. -/
structure SourceNode where
  text : String
  score : String
deriving Repr, DecidableEq

/-- A query response: its printed text, and `source_nodes` when the
response object has that attribute (`hasattr(response, ...)`). -/
structure Response where
  text : String
  sourceNodes : Option (List SourceNode)
deriving Repr, DecidableEq

/-- An uncaught Python exception.  The script only ever lets
`ImportError` escape. -/
inductive PyExn where
  | importError (modName : String)
deriving Repr, DecidableEq

/-- Observable events of a run: console prints, the third-party library
calls, and an entry marker for each of the script's own functions. -/
inductive Event where
  | print (s : String)
  | callSimple (path : String)
  | callLlama (path : String) (instr : Option String)
  | callCompare (path : String)
  | callCreateIndexAndQuery (docs : List Doc) (query : String)
  | simpleLoad (path : String)
  | llamaLoad (path : String) (instr : Option String)
  | indexFromDocuments (docs : List Doc)
  | queryEngineQuery (q : String)
deriving Repr, DecidableEq

/-- The external world: which modules import successfully, the two
environment variables, and the values returned by each library call. -/
structure Env where
  fileExists : String → Bool
  llamaIndexCoreInstalled : Bool
  llamaParseInstalled : Bool
  llamaLlmsOpenaiInstalled : Bool
  llamaEmbeddingsOpenaiInstalled : Bool
  llamaCloudApiKey : Option String
  openaiApiKey : Option String
  simpleLoadData : String → List Doc
  llamaParseLoadData : String → Option String → List Doc
  queryResponse : List Doc → String → Response

/-- Python truthiness of `os.getenv(...)` (and of `args.query`): `None`
and the empty string are falsy. -/
def pyTruthyStr : Option String → Bool
  | none => false
  | some s => !s.isEmpty

/-- Python truthiness of the `documents` variable in `main`: `None` and
an empty list are falsy. -/
def pyTruthyDocs : Option (List Doc) → Bool
  | none => false
  | some ds => !ds.isEmpty

/-- The `"="*60` separator line. -/
def eq60 : String := String.mk (List.replicate 60 '=')

/-- The preview loop of `parse_pdf_simple`:
`for i, doc in enumerate(documents)` printing page header, the first 300
characters, and an ellipsis. -/
def simplePreviews : Nat → List Doc → List Event
  | _, [] => []
  | i, d :: ds =>
      Event.print ("\n--- Page " ++ toString (i + 1) ++ " Preview (first 300 chars) ---")
        :: Event.print (d.text.take 300)
        :: Event.print "..."
        :: simplePreviews (i + 1) ds

/-- `parse_pdf_simple(pdf_path)`: header prints, then
`from llama_index.core import SimpleDirectoryReader` (which raises
`ImportError` if the package is missing — the import is not guarded),
then the load, count print and previews, returning the library's
document list unchanged. -/
def parse_pdf_simple (env : Env) (pdf_path : String) :
    List Event × Except PyExn (List Doc) :=
  let hdr : List Event :=
    [Event.callSimple pdf_path,
     Event.print ("\n" ++ eq60),
     Event.print "METHOD 1: Simple PDF Parsing (PyPDF)",
     Event.print eq60]
  if env.llamaIndexCoreInstalled then
    let documents := env.simpleLoadData pdf_path
    (hdr ++
      [Event.print ("Parsing: " ++ pdf_path),
       Event.simpleLoad pdf_path,
       Event.print ("✅ Parsed " ++ toString documents.length ++ " page(s)")] ++
      simplePreviews 0 documents,
     Except.ok documents)
  else
    (hdr, Except.error (PyExn.importError "llama_index.core"))

/-- The preview loop of `parse_pdf_llamaparse`: page header, first 500
characters, ellipsis, and the metadata line when `doc.metadata` is
truthy. -/
def llamaPreviews : Nat → List Doc → List Event
  | _, [] => []
  | i, d :: ds =>
      Event.print ("\n--- Page " ++ toString (i + 1) ++ " (Markdown) ---")
        :: Event.print (d.text.take 500)
        :: Event.print "..."
        :: ((match d.metadata with
             | none => []
             | some m => [Event.print ("Metadata: " ++ m)]) ++
            llamaPreviews (i + 1) ds)

/-- `parse_pdf_llamaparse(pdf_path, parsing_instruction=None)`: header
prints; the `from llama_parse import LlamaParse` import is guarded by
`try/except ImportError` and returns `None` with a message; a falsy
`LLAMA_CLOUD_API_KEY` also returns `None` with a message; otherwise the
LlamaParse load runs and the document list is returned unchanged. -/
def parse_pdf_llamaparse (env : Env) (pdf_path : String)
    (parsing_instruction : Option String) :
    List Event × Option (List Doc) :=
  let hdr : List Event :=
    [Event.callLlama pdf_path parsing_instruction,
     Event.print ("\n" ++ eq60),
     Event.print "METHOD 2: LlamaParse (LLM-Powered)",
     Event.print eq60]
  if !env.llamaParseInstalled then
    (hdr ++
      [Event.print "❌ llama-parse not installed",
       Event.print "Install with: pip install llama-parse"],
     none)
  else if !pyTruthyStr env.llamaCloudApiKey then
    (hdr ++
      [Event.print "❌ LLAMA_CLOUD_API_KEY not set",
       Event.print "\nTo use LlamaParse:",
       Event.print "1. Sign up at https://cloud.llamaindex.ai/",
       Event.print "2. Get your API key",
       Event.print "3. Set: export LLAMA_CLOUD_API_KEY=llx-your-key"],
     none)
  else
    let documents := env.llamaParseLoadData pdf_path parsing_instruction
    (hdr ++
      [Event.print ("Parsing: " ++ pdf_path),
       Event.print "⏳ This may take a moment (using LLM)...",
       Event.llamaLoad pdf_path parsing_instruction,
       Event.print ("✅ Parsed " ++ toString documents.length ++ " page(s)")] ++
      llamaPreviews 0 documents,
     some documents)

/-- The source-display loop of `create_index_and_query`:
`for i, node in enumerate(response.source_nodes)`. -/
def sourcePrints : Nat → List SourceNode → List Event
  | _, [] => []
  | i, n :: ns =>
      Event.print ("\n  Source " ++ toString (i + 1) ++ ":")
        :: Event.print ("  " ++ n.text.take 200 ++ "...")
        :: Event.print ("  Score: " ++ n.score)
        :: sourcePrints (i + 1) ns

/-- `create_index_and_query(documents, query)`: header prints, then three
unguarded imports (each raising `ImportError` when missing), then the
`OPENAI_API_KEY` check with plain `return`, then index construction,
query, response print and source display. -/
def create_index_and_query (env : Env) (documents : List Doc) (query : String) :
    List Event × Except PyExn Unit :=
  let hdr : List Event :=
    [Event.callCreateIndexAndQuery documents query,
     Event.print ("\n" ++ eq60),
     Event.print "Creating Index and Querying",
     Event.print eq60]
  if !env.llamaIndexCoreInstalled then
    (hdr, Except.error (PyExn.importError "llama_index.core"))
  else if !env.llamaLlmsOpenaiInstalled then
    (hdr, Except.error (PyExn.importError "llama_index.llms.openai"))
  else if !env.llamaEmbeddingsOpenaiInstalled then
    (hdr, Except.error (PyExn.importError "llama_index.embeddings.openai"))
  else if !pyTruthyStr env.openaiApiKey then
    (hdr ++
      [Event.print "❌ OPENAI_API_KEY not set",
       Event.print "Set: export OPENAI_API_KEY=sk-your-key"],
     Except.ok ())
  else
    let response := env.queryResponse documents query
    (hdr ++
      [Event.print "Creating vector index...",
       Event.indexFromDocuments documents,
       Event.print ("\nQuery: " ++ query),
       Event.queryEngineQuery query,
       Event.print "\n📝 Response:",
       Event.print response.text] ++
      (match response.sourceNodes with
       | none => []
       | some ns => Event.print "\n📚 Sources used:" :: sourcePrints 0 ns),
     Except.ok ())

/-- The fixed parsing instruction `compare_parsers` passes to
`parse_pdf_llamaparse`. -/
def compareInstruction : String :=
  "Extract all tables and preserve formatting as markdown"

/-- The comparison-summary block printed when both document lists are
truthy. -/
def summaryEvents (nSimple nLlama : Nat) : List Event :=
  [Event.print ("\n" ++ eq60),
   Event.print "COMPARISON SUMMARY",
   Event.print eq60,
   Event.print ("Simple Parser: " ++ toString nSimple ++ " pages"),
   Event.print ("LlamaParse:    " ++ toString nLlama ++ " pages"),
   Event.print "\nSimple Parser: Good for plain text PDFs",
   Event.print "LlamaParse:    Better for tables, forms, complex layouts"]

/-- The prints `compare_parsers` emits before running the first parser. -/
def compareHeader (pdf_path : String) : List Event :=
  [Event.callCompare pdf_path,
   Event.print ("\n" ++ eq60),
   Event.print "COMPARISON: Simple vs LlamaParse",
   Event.print eq60,
   Event.print "\n1️⃣  Simple Parser Output:"]

/-- `compare_parsers(pdf_path)`: runs both parsers in sequence (an
exception from `parse_pdf_simple` propagates) and prints the summary only
when `simple_docs and llama_docs` is truthy. -/
def compare_parsers (env : Env) (pdf_path : String) :
    List Event × Except PyExn Unit :=
  let hdr : List Event := compareHeader pdf_path
  match parse_pdf_simple env pdf_path with
  | (ev1, Except.error e) => (hdr ++ ev1, Except.error e)
  | (ev1, Except.ok simple_docs) =>
      let (ev2, llama_docs) :=
        parse_pdf_llamaparse env pdf_path (some compareInstruction)
      let summary :=
        if !simple_docs.isEmpty && pyTruthyDocs llama_docs then
          summaryEvents simple_docs.length
            ((llama_docs.getD []).length)
        else []
      (hdr ++ ev1 ++ [Event.print "\n2️⃣  LlamaParse Output:"] ++ ev2 ++ summary,
       Except.ok ())

/-- The parsing method selected by `--method`. -/
inductive Method where
  | simple
  | llamaparse
  | compare
deriving Repr, DecidableEq

/-- The string form of a method, as printed by `main`. -/
def methodName : Method → String
  | Method.simple => "simple"
  | Method.llamaparse => "llamaparse"
  | Method.compare => "compare"

/-- The parsed command-line arguments (`args` after
`parser.parse_args()`). -/
structure Args where
  pdf_path : String
  method : Method
  query : Option String
  instruction : Option String
deriving Repr, DecidableEq

/-- The two prints `main` emits once the file-existence check passes. -/
def mainHeader (args : Args) : List Event :=
  [Event.print ("📄 PDF: " ++ args.pdf_path),
   Event.print ("📊 Method: " ++ methodName args.method)]

/-- The tail of `main` after the dispatch for `simple`/`llamaparse`:
`if args.query and documents:` runs `create_index_and_query`, then
`print("\n✅ Done!")`. -/
def mainAfterParse (env : Env) (args : Args) (evSoFar : List Event)
    (documents : Option (List Doc)) : List Event × Except PyExn Unit :=
  if pyTruthyStr args.query && pyTruthyDocs documents then
    match create_index_and_query env (documents.getD []) (args.query.getD "") with
    | (ev, Except.error e) => (evSoFar ++ ev, Except.error e)
    | (ev, Except.ok _) =>
        (evSoFar ++ ev ++ [Event.print "\n✅ Done!"], Except.ok ())
  else
    (evSoFar ++ [Event.print "\n✅ Done!"], Except.ok ())

/-- `main()` after argument parsing: the `os.path.exists` check with its
early return, the method dispatch (the `compare` branch returns
immediately after `compare_parsers`), the optional query step, and the
final done print. -/
def main (env : Env) (args : Args) : List Event × Except PyExn Unit :=
  if !env.fileExists args.pdf_path then
    ([Event.print ("❌ PDF not found: " ++ args.pdf_path)], Except.ok ())
  else
    let hdr := mainHeader args
    match args.method with
    | Method.simple =>
        match parse_pdf_simple env args.pdf_path with
        | (ev, Except.error e) => (hdr ++ ev, Except.error e)
        | (ev, Except.ok ds) => mainAfterParse env args (hdr ++ ev) (some ds)
    | Method.llamaparse =>
        let (ev, docs) := parse_pdf_llamaparse env args.pdf_path args.instruction
        mainAfterParse env args (hdr ++ ev) docs
    | Method.compare =>
        let (ev, r) := compare_parsers env args.pdf_path
        (hdr ++ ev, r)

/-- How argument parsing can end without producing an `Args` value:
`--help` exits after printing help, and any other parse failure exits
with a usage error. -/
inductive ArgExit where
  | helpExit
  | usageError (msg : String)
deriving Repr, DecidableEq

/-- Models argparse behavior for the arguments `main` registers: one
required positional `pdf_path`, `--method` with
`choices=["simple", "llamaparse", "compare"]` and `default="simple"`,
and free-form `--query` and `--instruction`.  A `--method` value outside
the choices is rejected while consuming the token; a missing positional
is reported after the scan; unrecognized option-like tokens are
rejected. -/
def parseMethodChoice : String → Option Method
  | "simple" => some Method.simple
  | "llamaparse" => some Method.llamaparse
  | "compare" => some Method.compare
  | _ => none

/-- In argparse a token beginning with a dash is treated as an optional
argument, never as the positional. -/
def isOptionLike (tok : String) : Bool :=
  match tok.data with
  | [] => false
  | c :: _ => c == '-'

/-- The scanning loop of the argparse model: tokens still to read, then
the accumulated positional, `--method`, `--query` and `--instruction`
values. -/
def parseArgsGo : List String → Option String → Option Method →
    Option String → Option String → Except ArgExit Args
  | [], pos, m, q, i =>
      match pos with
      | none =>
          Except.error (ArgExit.usageError
            "the following arguments are required: pdf_path")
      | some p =>
          Except.ok
            { pdf_path := p, method := m.getD Method.simple,
              query := q, instruction := i }
  | tok :: rest, pos, m, q, i =>
      if tok = "--help" ∨ tok = "-h" then
        Except.error ArgExit.helpExit
      else if tok = "--method" then
        match rest with
        | [] =>
            Except.error (ArgExit.usageError
              "argument --method: expected one argument")
        | v :: rest2 =>
            match parseMethodChoice v with
            | none =>
                Except.error (ArgExit.usageError
                  ("argument --method: invalid choice: " ++ v))
            | some m2 => parseArgsGo rest2 pos (some m2) q i
      else if tok = "--query" then
        match rest with
        | [] =>
            Except.error (ArgExit.usageError
              "argument --query: expected one argument")
        | v :: rest2 => parseArgsGo rest2 pos m (some v) i
      else if tok = "--instruction" then
        match rest with
        | [] =>
            Except.error (ArgExit.usageError
              "argument --instruction: expected one argument")
        | v :: rest2 => parseArgsGo rest2 pos m q (some v)
      else if isOptionLike tok then
        Except.error (ArgExit.usageError ("unrecognized arguments: " ++ tok))
      else
        match pos with
        | none => parseArgsGo rest (some tok) m q i
        | some _ =>
            Except.error (ArgExit.usageError ("unrecognized arguments: " ++ tok))

/-- `parser.parse_args()` over the user-supplied tokens
(`sys.argv[1:]`). -/
def parseArgs (tokens : List String) : Except ArgExit Args :=
  parseArgsGo tokens none none none none

/-- How a whole script run ends: normal completion, help shown, argparse
usage error (exit code 2), or an uncaught exception. -/
inductive Outcome where
  | normal
  | helpShown
  | usage (msg : String)
  | raised (e : PyExn)
deriving Repr, DecidableEq

/-- The quick-start text printed by the `__main__` block when
`len(sys.argv) == 1`. -/
def quickstartEvents : List Event :=
  [Event.print "PDF Parsing Example",
   Event.print eq60,
   Event.print "\nUsage: python pdf_parser_example.py <pdf_file> [options]",
   Event.print "\nQuick start:",
   Event.print "  1. Place a PDF in the data/ folder",
   Event.print "  2. Run: python pdf_parser_example.py data/sample.pdf",
   Event.print "\nFor more options: python pdf_parser_example.py --help",
   Event.print ("\n" ++ eq60)]

/-- The `if __name__ == "__main__":` block: with `len(sys.argv) == 1` it
prints the quick-start text and ends without calling `main`; otherwise
it runs `main`, whose argument parsing may exit first.  `argv` is the
full `sys.argv`, program name included. -/
def pyScript (env : Env) (argv : List String) : List Event × Outcome :=
  if argv.length == 1 then
    (quickstartEvents, Outcome.normal)
  else
    match parseArgs argv.tail with
    | Except.error ArgExit.helpExit => ([], Outcome.helpShown)
    | Except.error (ArgExit.usageError msg) => ([], Outcome.usage msg)
    | Except.ok args =>
        match main env args with
        | (ev, Except.ok _) => (ev, Outcome.normal)
        | (ev, Except.error e) => (ev, Outcome.raised e)

/-- True on the entry markers of the three dispatch targets of `main`
(`parse_pdf_simple`, `parse_pdf_llamaparse`, `compare_parsers`). -/
def isDispatchMarker : Event → Bool
  | Event.callSimple _ => true
  | Event.callLlama _ _ => true
  | Event.callCompare _ => true
  | _ => false

/-- The dispatch-target entry markers occurring in a trace, in order. -/
def dispatchCalls (t : List Event) : List Event :=
  t.filter isDispatchMarker

/-- True on the entry marker of `create_index_and_query`. -/
def isCreateMarker : Event → Bool
  | Event.callCreateIndexAndQuery _ _ => true
  | _ => false

/-- The `create_index_and_query` entry markers occurring in a trace. -/
def createCalls (t : List Event) : List Event :=
  t.filter isCreateMarker

@[simp]
theorem dispatchCalls_nil : dispatchCalls [] = [] := rfl

@[simp]
theorem dispatchCalls_append (s t : List Event) :
    dispatchCalls (s ++ t) = dispatchCalls s ++ dispatchCalls t :=
  List.filter_append s t

@[simp]
theorem dispatchCalls_cons (e : Event) (t : List Event) :
    dispatchCalls (e :: t) =
      if isDispatchMarker e then e :: dispatchCalls t else dispatchCalls t :=
  List.filter_cons

@[simp]
theorem createCalls_nil : createCalls [] = [] := rfl

@[simp]
theorem createCalls_append (s t : List Event) :
    createCalls (s ++ t) = createCalls s ++ createCalls t :=
  List.filter_append s t

@[simp]
theorem createCalls_cons (e : Event) (t : List Event) :
    createCalls (e :: t) =
      if isCreateMarker e then e :: createCalls t else createCalls t :=
  List.filter_cons

@[simp]
theorem dispatchCalls_simplePreviews (i : Nat) (ds : List Doc) :
    dispatchCalls (simplePreviews i ds) = [] := by
  induction ds generalizing i with
  | nil => simp [simplePreviews]
  | cons d ds ih => simp [simplePreviews, isDispatchMarker, ih]

@[simp]
theorem createCalls_simplePreviews (i : Nat) (ds : List Doc) :
    createCalls (simplePreviews i ds) = [] := by
  induction ds generalizing i with
  | nil => simp [simplePreviews]
  | cons d ds ih => simp [simplePreviews, isCreateMarker, ih]

@[simp]
theorem dispatchCalls_llamaPreviews (i : Nat) (ds : List Doc) :
    dispatchCalls (llamaPreviews i ds) = [] := by
  induction ds generalizing i with
  | nil => simp [llamaPreviews]
  | cons d ds ih =>
      cases hm : d.metadata <;>
        simp [llamaPreviews, isDispatchMarker, ih, hm]

@[simp]
theorem createCalls_llamaPreviews (i : Nat) (ds : List Doc) :
    createCalls (llamaPreviews i ds) = [] := by
  induction ds generalizing i with
  | nil => simp [llamaPreviews]
  | cons d ds ih =>
      cases hm : d.metadata <;>
        simp [llamaPreviews, isCreateMarker, ih, hm]

@[simp]
theorem dispatchCalls_sourcePrints (i : Nat) (ns : List SourceNode) :
    dispatchCalls (sourcePrints i ns) = [] := by
  induction ns generalizing i with
  | nil => simp [sourcePrints]
  | cons n ns ih => simp [sourcePrints, isDispatchMarker, ih]

@[simp]
theorem createCalls_sourcePrints (i : Nat) (ns : List SourceNode) :
    createCalls (sourcePrints i ns) = [] := by
  induction ns generalizing i with
  | nil => simp [sourcePrints]
  | cons n ns ih => simp [sourcePrints, isCreateMarker, ih]

@[simp]
theorem dispatchCalls_summaryEvents (a b : Nat) :
    dispatchCalls (summaryEvents a b) = [] := by
  simp [summaryEvents, isDispatchMarker]

@[simp]
theorem createCalls_summaryEvents (a b : Nat) :
    createCalls (summaryEvents a b) = [] := by
  simp [summaryEvents, isCreateMarker]

theorem dispatchCalls_parse_pdf_simple (env : Env) (p : String) :
    dispatchCalls (parse_pdf_simple env p).1 = [Event.callSimple p] := by
  cases h : env.llamaIndexCoreInstalled <;>
    simp [parse_pdf_simple, h, isDispatchMarker]

theorem createCalls_parse_pdf_simple (env : Env) (p : String) :
    createCalls (parse_pdf_simple env p).1 = [] := by
  cases h : env.llamaIndexCoreInstalled <;>
    simp [parse_pdf_simple, h, isCreateMarker]

theorem dispatchCalls_parse_pdf_llamaparse (env : Env) (p : String)
    (instr : Option String) :
    dispatchCalls (parse_pdf_llamaparse env p instr).1 =
      [Event.callLlama p instr] := by
  cases h : env.llamaParseInstalled <;>
    cases hk : pyTruthyStr env.llamaCloudApiKey <;>
      simp [parse_pdf_llamaparse, h, hk, isDispatchMarker]

theorem createCalls_parse_pdf_llamaparse (env : Env) (p : String)
    (instr : Option String) :
    createCalls (parse_pdf_llamaparse env p instr).1 = [] := by
  cases h : env.llamaParseInstalled <;>
    cases hk : pyTruthyStr env.llamaCloudApiKey <;>
      simp [parse_pdf_llamaparse, h, hk, isCreateMarker]

theorem dispatchCalls_create_index_and_query (env : Env) (ds : List Doc)
    (q : String) :
    dispatchCalls (create_index_and_query env ds q).1 = [] := by
  cases h1 : env.llamaIndexCoreInstalled <;>
    cases h2 : env.llamaLlmsOpenaiInstalled <;>
      cases h3 : env.llamaEmbeddingsOpenaiInstalled <;>
        cases hk : pyTruthyStr env.openaiApiKey <;>
          cases hs : (env.queryResponse ds q).sourceNodes <;>
            simp [create_index_and_query, h1, h2, h3, hk, hs, isDispatchMarker]

theorem createCalls_create_index_and_query (env : Env) (ds : List Doc)
    (q : String) :
    createCalls (create_index_and_query env ds q).1 =
      [Event.callCreateIndexAndQuery ds q] := by
  cases h1 : env.llamaIndexCoreInstalled <;>
    cases h2 : env.llamaLlmsOpenaiInstalled <;>
      cases h3 : env.llamaEmbeddingsOpenaiInstalled <;>
        cases hk : pyTruthyStr env.openaiApiKey <;>
          cases hs : (env.queryResponse ds q).sourceNodes <;>
            simp [create_index_and_query, h1, h2, h3, hk, hs, isCreateMarker]

theorem dispatchCalls_compare_parsers (env : Env) (p : String) :
    dispatchCalls (compare_parsers env p).1 =
      Event.callCompare p :: Event.callSimple p ::
        (if env.llamaIndexCoreInstalled then
           [Event.callLlama p (some compareInstruction)]
         else []) := by
  cases h : env.llamaIndexCoreInstalled
  · simp [compare_parsers, compareHeader, parse_pdf_simple, h, isDispatchMarker]
  · rcases hl : parse_pdf_llamaparse env p (some compareInstruction) with ⟨ev2, ldocs⟩
    have hdc : dispatchCalls ev2 = [Event.callLlama p (some compareInstruction)] := by
      have h2 := dispatchCalls_parse_pdf_llamaparse env p (some compareInstruction)
      rw [hl] at h2
      exact h2
    simp [compare_parsers, compareHeader, parse_pdf_simple, h, hl, hdc,
      isDispatchMarker, apply_ite dispatchCalls]

theorem createCalls_compare_parsers (env : Env) (p : String) :
    createCalls (compare_parsers env p).1 = [] := by
  cases h : env.llamaIndexCoreInstalled
  · simp [compare_parsers, compareHeader, parse_pdf_simple, h, isCreateMarker]
  · rcases hl : parse_pdf_llamaparse env p (some compareInstruction) with ⟨ev2, ldocs⟩
    have hdc : createCalls ev2 = [] := by
      have h2 := createCalls_parse_pdf_llamaparse env p (some compareInstruction)
      rw [hl] at h2
      exact h2
    simp [compare_parsers, compareHeader, parse_pdf_simple, h, hl, hdc,
      isCreateMarker, apply_ite createCalls]

theorem dispatchCalls_mainAfterParse (env : Env) (args : Args)
    (ev : List Event) (docs : Option (List Doc)) :
    dispatchCalls (mainAfterParse env args ev docs).1 = dispatchCalls ev := by
  cases hq : pyTruthyStr args.query && pyTruthyDocs docs
  · simp [mainAfterParse, hq, isDispatchMarker]
  · rcases hc : create_index_and_query env (docs.getD []) (args.query.getD "")
      with ⟨cev, r⟩
    have hdc : dispatchCalls cev = [] := by
      have h2 := dispatchCalls_create_index_and_query env (docs.getD [])
        (args.query.getD "")
      rw [hc] at h2
      exact h2
    cases r <;> simp [mainAfterParse, hq, hc, hdc, isDispatchMarker]

theorem createCalls_mainAfterParse (env : Env) (args : Args)
    (ev : List Event) (docs : Option (List Doc)) :
    createCalls (mainAfterParse env args ev docs).1 =
      createCalls ev ++
        (if pyTruthyStr args.query && pyTruthyDocs docs then
           [Event.callCreateIndexAndQuery (docs.getD []) (args.query.getD "")]
         else []) := by
  cases hq : pyTruthyStr args.query && pyTruthyDocs docs
  · simp [mainAfterParse, hq, isCreateMarker]
  · rcases hc : create_index_and_query env (docs.getD []) (args.query.getD "")
      with ⟨cev, r⟩
    have hdc : createCalls cev =
        [Event.callCreateIndexAndQuery (docs.getD []) (args.query.getD "")] := by
      have h2 := createCalls_create_index_and_query env (docs.getD [])
        (args.query.getD "")
      rw [hc] at h2
      exact h2
    cases r <;> simp [mainAfterParse, hq, hc, hdc, isCreateMarker]

/-- True on the third-party library-call events (the reader load, the
LlamaParse load, index construction and the query itself). -/
def isLibCallMarker : Event → Bool
  | Event.simpleLoad _ => true
  | Event.llamaLoad _ _ => true
  | Event.indexFromDocuments _ => true
  | Event.queryEngineQuery _ => true
  | _ => false

/-- The third-party library-call events occurring in a trace. -/
def libCalls (t : List Event) : List Event :=
  t.filter isLibCallMarker

/-- A world in which every import succeeds, both API keys are set, the
PDF exists and every library call returns a small fixed value. -/
def envAllGood : Env where
  fileExists := fun _ => true
  llamaIndexCoreInstalled := true
  llamaParseInstalled := true
  llamaLlmsOpenaiInstalled := true
  llamaEmbeddingsOpenaiInstalled := true
  llamaCloudApiKey := some "llx-key"
  openaiApiKey := some "sk-key"
  simpleLoadData := fun _ => [{ text := "plain page text", metadata := none }]
  llamaParseLoadData := fun _ _ =>
    [{ text := "# markdown page", metadata := some "file sample.pdf" }]
  queryResponse := fun _ _ =>
    { text := "The answer.",
      sourceNodes := some [{ text := "plain page text", score := "0.900" }] }

/-- As `envAllGood`, but the requested PDF does not exist. -/
def envNoFile : Env :=
  { envAllGood with fileExists := fun _ => false }

/-- As `envAllGood`, but `llama_index.core` fails to import. -/
def envNoCore : Env :=
  { envAllGood with llamaIndexCoreInstalled := false }

/-- As `envAllGood`, but `llama_parse` fails to import. -/
def envNoLlamaParse : Env :=
  { envAllGood with llamaParseInstalled := false }

/-- As `envAllGood`, but `llama_index.llms.openai` fails to import. -/
def envNoLlms : Env :=
  { envAllGood with llamaLlmsOpenaiInstalled := false }

/-- As `envAllGood`, but `LLAMA_CLOUD_API_KEY` is unset. -/
def envNoLlamaKey : Env :=
  { envAllGood with llamaCloudApiKey := none }

/-- As `envAllGood`, but `OPENAI_API_KEY` is unset. -/
def envNoOpenaiKey : Env :=
  { envAllGood with openaiApiKey := none }

theorem main_simple_eq (env : Env) (args : Args)
    (hf : env.fileExists args.pdf_path = true)
    (hm : args.method = Method.simple)
    (hc : env.llamaIndexCoreInstalled = true) :
    main env args =
      mainAfterParse env args
        (mainHeader args ++ (parse_pdf_simple env args.pdf_path).1)
        (some (env.simpleLoadData args.pdf_path)) := by
  simp [main, hf, hm, parse_pdf_simple, hc]

theorem main_llama_eq (env : Env) (args : Args)
    (hf : env.fileExists args.pdf_path = true)
    (hm : args.method = Method.llamaparse) :
    main env args =
      mainAfterParse env args
        (mainHeader args ++ (parse_pdf_llamaparse env args.pdf_path args.instruction).1)
        (parse_pdf_llamaparse env args.pdf_path args.instruction).2 := by
  rcases hl : parse_pdf_llamaparse env args.pdf_path args.instruction with ⟨ev, docs⟩
  simp [main, hf, hm, hl]

/-- C4: when the positional pdf_path does not name an existing file,
`main` prints a PDF-not-found message and returns early: its whole trace
is that one print, so no parsing method, no query pipeline and no
library call is invoked. -/
theorem claim_C4_missing_file (env : Env) (args : Args)
    (hf : env.fileExists args.pdf_path = false) :
    main env args =
      ([Event.print ("❌ PDF not found: " ++ args.pdf_path)], Except.ok ())
    ∧ dispatchCalls (main env args).1 = []
    ∧ createCalls (main env args).1 = []
    ∧ libCalls (main env args).1 = [] := by
  have hm : main env args =
      ([Event.print ("❌ PDF not found: " ++ args.pdf_path)], Except.ok ()) := by
    simp [main, hf]
  refine ⟨hm, ?_, ?_, ?_⟩ <;> rw [hm] <;>
    simp [dispatchCalls, createCalls, libCalls,
      isDispatchMarker, isCreateMarker, isLibCallMarker]

/-- Closed instance of `claim_C4_missing_file` at a concrete world and
argument vector. -/
theorem claim_C4_missing_file_witness :
    envNoFile.fileExists "data/sample.pdf" = false
    ∧ (main envNoFile
        { pdf_path := "data/sample.pdf", method := Method.simple,
          query := none, instruction := none } =
        ([Event.print ("❌ PDF not found: " ++ "data/sample.pdf")], Except.ok ())
      ∧ dispatchCalls (main envNoFile
          { pdf_path := "data/sample.pdf", method := Method.simple,
            query := none, instruction := none }).1 = []
      ∧ createCalls (main envNoFile
          { pdf_path := "data/sample.pdf", method := Method.simple,
            query := none, instruction := none }).1 = []
      ∧ libCalls (main envNoFile
          { pdf_path := "data/sample.pdf", method := Method.simple,
            query := none, instruction := none }).1 = []) :=
  ⟨rfl,
   claim_C4_missing_file envNoFile
     { pdf_path := "data/sample.pdf", method := Method.simple,
       query := none, instruction := none } rfl⟩

/-- C10: run with no command-line arguments (`sys.argv` is just the
program name), the script prints the quick-start text and ends normally
without calling `main`: nothing is dispatched and the argument parser
never reports a missing positional. -/
theorem claim_C10_no_args (env : Env) (prog : String) :
    pyScript env [prog] = (quickstartEvents, Outcome.normal)
    ∧ dispatchCalls (pyScript env [prog]).1 = []
    ∧ ∀ msg, (pyScript env [prog]).2 ≠ Outcome.usage msg := by
  have h : pyScript env [prog] = (quickstartEvents, Outcome.normal) := by
    simp [pyScript]
  refine ⟨h, ?_, ?_⟩
  · rw [h]
    simp [quickstartEvents, isDispatchMarker]
  · intro msg
    rw [h]
    simp

/-- C5: with an existing PDF, `main` routes exactly by the method value:
simple dispatches only `parse_pdf_simple` on the path, llamaparse
dispatches only `parse_pdf_llamaparse` with the path and the
`--instruction` value, and compare delegates wholly to
`compare_parsers` (whose own trace contains the two parser runs it makes
internally). -/
theorem claim_C5_dispatch (env : Env) (args : Args)
    (hf : env.fileExists args.pdf_path = true) :
    (args.method = Method.simple →
       dispatchCalls (main env args).1 = [Event.callSimple args.pdf_path])
    ∧ (args.method = Method.llamaparse →
       dispatchCalls (main env args).1 =
         [Event.callLlama args.pdf_path args.instruction])
    ∧ (args.method = Method.compare →
       main env args =
         (mainHeader args ++ (compare_parsers env args.pdf_path).1,
          (compare_parsers env args.pdf_path).2)
       ∧ dispatchCalls (main env args).1 =
           Event.callCompare args.pdf_path :: Event.callSimple args.pdf_path ::
             (if env.llamaIndexCoreInstalled then
                [Event.callLlama args.pdf_path (some compareInstruction)]
              else [])) := by
  refine ⟨?_, ?_, ?_⟩
  · intro hm
    rcases hs : parse_pdf_simple env args.pdf_path with ⟨ev, r⟩
    have hd : dispatchCalls ev = [Event.callSimple args.pdf_path] := by
      have h2 := dispatchCalls_parse_pdf_simple env args.pdf_path
      rw [hs] at h2
      exact h2
    cases r with
    | error e => simp [main, hf, hm, hs, mainHeader, isDispatchMarker, hd]
    | ok ds =>
        simp [main, hf, hm, hs, dispatchCalls_mainAfterParse, mainHeader,
          isDispatchMarker, hd]
  · intro hm
    rcases hl : parse_pdf_llamaparse env args.pdf_path args.instruction
      with ⟨ev, docs⟩
    have hd : dispatchCalls ev = [Event.callLlama args.pdf_path args.instruction] := by
      have h2 := dispatchCalls_parse_pdf_llamaparse env args.pdf_path args.instruction
      rw [hl] at h2
      exact h2
    simp [main, hf, hm, hl, dispatchCalls_mainAfterParse, mainHeader,
      isDispatchMarker, hd]
  · intro hm
    rcases hc : compare_parsers env args.pdf_path with ⟨ev, r⟩
    have hd : dispatchCalls ev =
        Event.callCompare args.pdf_path :: Event.callSimple args.pdf_path ::
          (if env.llamaIndexCoreInstalled then
             [Event.callLlama args.pdf_path (some compareInstruction)]
           else []) := by
      have h2 := dispatchCalls_compare_parsers env args.pdf_path
      rw [hc] at h2
      exact h2
    constructor
    · simp [main, hf, hm, hc]
    · simp [main, hf, hm, hc, mainHeader, isDispatchMarker, hd]

/-- Closed instance of `claim_C5_dispatch`: with everything installed,
the simple method dispatches exactly one parser. -/
theorem claim_C5_dispatch_witness :
    envAllGood.fileExists "data/sample.pdf" = true
    ∧ dispatchCalls (main envAllGood
        { pdf_path := "data/sample.pdf", method := Method.simple,
          query := none, instruction := none }).1 =
        [Event.callSimple "data/sample.pdf"] :=
  ⟨rfl,
   (claim_C5_dispatch envAllGood
     { pdf_path := "data/sample.pdf", method := Method.simple,
       query := none, instruction := none } rfl).1 rfl⟩

/-- An invocation with `--method compare` and a truthy `--query`, in a
world where every library and key is available. -/
def argsCompareQuery : Args :=
  { pdf_path := "data/sample.pdf", method := Method.compare,
    query := some "What are the main topics?", instruction := none }

/-- C1 fails on the code: with `--method compare` and a supplied
`--query`, in a fully working world, the run ends normally yet
`create_index_and_query` is never entered. -/
theorem claim_C1_counterexample :
    pyTruthyStr argsCompareQuery.query = true
    ∧ (main envAllGood argsCompareQuery).2 = Except.ok ()
    ∧ createCalls (main envAllGood argsCompareQuery).1 = [] := by
  refine ⟨by rfl, by rfl, by rfl⟩

/-- C1 (amended): with `--method compare`, `main` runs `compare_parsers`
and returns immediately, so `create_index_and_query` is never invoked,
even when a `--query` argument is supplied. -/
theorem claim_C1_compare_skips_query (env : Env) (args : Args)
    (hm : args.method = Method.compare) :
    createCalls (main env args).1 = []
    ∧ (env.fileExists args.pdf_path = true →
        main env args =
          (mainHeader args ++ (compare_parsers env args.pdf_path).1,
           (compare_parsers env args.pdf_path).2)) := by
  constructor
  · cases hf : env.fileExists args.pdf_path
    · simp [main, hf, isCreateMarker]
    · rcases hc : compare_parsers env args.pdf_path with ⟨ev, r⟩
      have h2 : createCalls ev = [] := by
        have h3 := createCalls_compare_parsers env args.pdf_path
        rw [hc] at h3
        exact h3
      simp [main, hf, hm, hc, mainHeader, isCreateMarker, h2]
  · intro hf
    rcases hc : compare_parsers env args.pdf_path with ⟨ev, r⟩
    simp [main, hf, hm, hc]

/-- Closed instance of `claim_C1_compare_skips_query`. -/
theorem claim_C1_compare_skips_query_witness :
    argsCompareQuery.method = Method.compare
    ∧ createCalls (main envAllGood argsCompareQuery).1 = [] :=
  ⟨rfl, (claim_C1_compare_skips_query envAllGood argsCompareQuery rfl).1⟩

/-- C2 fails on the code: with `llama_index.core` missing, a
`--method simple` run does not short-circuit with a message — the
`ImportError` propagates out of the script. -/
theorem claim_C2_counterexample :
    (pyScript envNoCore ["python", "doc.pdf", "--method", "simple"]).2 =
      Outcome.raised (PyExn.importError "llama_index.core") := by
  simp [pyScript, parseArgs, parseArgsGo, isOptionLike, parseMethodChoice,
    main, envNoCore, envAllGood, parse_pdf_simple, mainHeader]

/-- C2 (amended): only the `llama_parse` import site is guarded — a
missing `llama_parse` makes `parse_pdf_llamaparse` print a message and
return `None` with no exception, while a missing `llama_index.core`
makes `parse_pdf_simple` raise `ImportError`, and a missing
`llama_index.llms.openai` makes `create_index_and_query` raise
`ImportError`. -/
theorem claim_C2_dependency_handling (env : Env) (p : String)
    (instr : Option String) (ds : List Doc) (q : String) :
    (env.llamaParseInstalled = false →
       (parse_pdf_llamaparse env p instr).2 = none
       ∧ Event.print "❌ llama-parse not installed" ∈
           (parse_pdf_llamaparse env p instr).1)
    ∧ (env.llamaIndexCoreInstalled = false →
       (parse_pdf_simple env p).2 =
         Except.error (PyExn.importError "llama_index.core"))
    ∧ (env.llamaIndexCoreInstalled = true →
       env.llamaLlmsOpenaiInstalled = false →
       (create_index_and_query env ds q).2 =
         Except.error (PyExn.importError "llama_index.llms.openai")) := by
  refine ⟨?_, ?_, ?_⟩
  · intro h
    constructor
    · simp [parse_pdf_llamaparse, h]
    · simp [parse_pdf_llamaparse, h]
  · intro h
    simp [parse_pdf_simple, h]
  · intro h1 h2
    simp [create_index_and_query, h1, h2]

/-- Closed instance of `claim_C2_dependency_handling`, one world per
missing dependency. -/
theorem claim_C2_dependency_handling_witness :
    ((parse_pdf_llamaparse envNoLlamaParse "doc.pdf" none).2 = none
      ∧ Event.print "❌ llama-parse not installed" ∈
          (parse_pdf_llamaparse envNoLlamaParse "doc.pdf" none).1)
    ∧ (parse_pdf_simple envNoCore "doc.pdf").2 =
        Except.error (PyExn.importError "llama_index.core")
    ∧ (create_index_and_query envNoLlms [] "q").2 =
        Except.error (PyExn.importError "llama_index.llms.openai") :=
  ⟨(claim_C2_dependency_handling envNoLlamaParse "doc.pdf" none [] "q").1 rfl,
   (claim_C2_dependency_handling envNoCore "doc.pdf" none [] "q").2.1 rfl,
   (claim_C2_dependency_handling envNoLlms "doc.pdf" none [] "q").2.2 rfl rfl⟩

/-- C3: an unset `LLAMA_CLOUD_API_KEY` makes `parse_pdf_llamaparse`
print a message and return `None` without any library call, and an unset
`OPENAI_API_KEY` makes `create_index_and_query` print a message and
return normally without building an index or issuing a query. -/
theorem claim_C3_api_keys (env : Env) (p : String) (instr : Option String)
    (ds : List Doc) (q : String) :
    (env.llamaParseInstalled = true → env.llamaCloudApiKey = none →
       (parse_pdf_llamaparse env p instr).2 = none
       ∧ libCalls (parse_pdf_llamaparse env p instr).1 = []
       ∧ Event.print "❌ LLAMA_CLOUD_API_KEY not set" ∈
           (parse_pdf_llamaparse env p instr).1)
    ∧ (env.llamaIndexCoreInstalled = true →
       env.llamaLlmsOpenaiInstalled = true →
       env.llamaEmbeddingsOpenaiInstalled = true →
       env.openaiApiKey = none →
       (create_index_and_query env ds q).2 = Except.ok ()
       ∧ libCalls (create_index_and_query env ds q).1 = []
       ∧ Event.print "❌ OPENAI_API_KEY not set" ∈
           (create_index_and_query env ds q).1) := by
  constructor
  · intro h hk
    refine ⟨?_, ?_, ?_⟩ <;>
      simp [parse_pdf_llamaparse, h, hk, pyTruthyStr, libCalls, isLibCallMarker]
  · intro h1 h2 h3 hk
    refine ⟨?_, ?_, ?_⟩ <;>
      simp [create_index_and_query, h1, h2, h3, hk, pyTruthyStr,
        libCalls, isLibCallMarker]

/-- Closed instance of `claim_C3_api_keys`, one world per unset key. -/
theorem claim_C3_api_keys_witness :
    ((parse_pdf_llamaparse envNoLlamaKey "doc.pdf" none).2 = none
      ∧ libCalls (parse_pdf_llamaparse envNoLlamaKey "doc.pdf" none).1 = []
      ∧ Event.print "❌ LLAMA_CLOUD_API_KEY not set" ∈
          (parse_pdf_llamaparse envNoLlamaKey "doc.pdf" none).1)
    ∧ ((create_index_and_query envNoOpenaiKey [] "q").2 = Except.ok ()
      ∧ libCalls (create_index_and_query envNoOpenaiKey [] "q").1 = []
      ∧ Event.print "❌ OPENAI_API_KEY not set" ∈
          (create_index_and_query envNoOpenaiKey [] "q").1) :=
  ⟨(claim_C3_api_keys envNoLlamaKey "doc.pdf" none [] "q").1 rfl rfl,
   (claim_C3_api_keys envNoOpenaiKey "doc.pdf" none [] "q").2 rfl rfl rfl rfl⟩

/-- C6: `--method` accepts exactly the three registered choices; any
other value makes the argument parser reject the invocation with a usage
error before any of the script logic produces an event; and with
`--method` omitted the parsed method is `simple`. -/
theorem claim_C6_method_choices (env : Env) (prog path v : String)
    (hpath : isOptionLike path = false) :
    ((parseMethodChoice v).isSome = true ↔
       v = "simple" ∨ v = "llamaparse" ∨ v = "compare")
    ∧ (parseMethodChoice v = none →
       pyScript env [prog, path, "--method", v] =
         ([], Outcome.usage ("argument --method: invalid choice: " ++ v)))
    ∧ parseArgs [path] =
        Except.ok { pdf_path := path, method := Method.simple,
                    query := none, instruction := none } := by
  have hne : ∀ s : String, isOptionLike s = true → path ≠ s := by
    intro s hs h
    rw [h, hs] at hpath
    exact Bool.noConfusion hpath
  have h1 := hne "--help" (by decide)
  have h2 := hne "-h" (by decide)
  have h3 := hne "--method" (by decide)
  have h4 := hne "--query" (by decide)
  have h5 := hne "--instruction" (by decide)
  refine ⟨?_, ?_, ?_⟩
  · unfold parseMethodChoice
    split <;> simp_all
  · intro hv
    simp [pyScript, parseArgs, parseArgsGo, h1, h2, h3, h4, h5, hpath, hv]
  · simp [parseArgs, parseArgsGo, h1, h2, h3, h4, h5, hpath]

/-- Closed instance of `claim_C6_method_choices`: the value `bogus` is
rejected with a usage error and an empty trace, and omitting `--method`
parses to the simple method. -/
theorem claim_C6_method_choices_witness :
    isOptionLike "doc.pdf" = false
    ∧ pyScript envAllGood ["python", "doc.pdf", "--method", "bogus"] =
        ([], Outcome.usage ("argument --method: invalid choice: " ++ "bogus"))
    ∧ parseArgs ["doc.pdf"] =
        Except.ok { pdf_path := "doc.pdf", method := Method.simple,
                    query := none, instruction := none } :=
  ⟨by decide,
   (claim_C6_method_choices envAllGood "python" "doc.pdf" "bogus"
     (by decide)).2.1 rfl,
   (claim_C6_method_choices envAllGood "python" "doc.pdf" "bogus"
     (by decide)).2.2⟩

/-- C7: both parse functions return the library's document list
unchanged, and `main` hands exactly that list on to
`create_index_and_query` when the query step runs. -/
theorem claim_C7_passthrough (env : Env) (p q : String)
    (instr : Option String) :
    (env.llamaIndexCoreInstalled = true →
       (parse_pdf_simple env p).2 = Except.ok (env.simpleLoadData p))
    ∧ (env.llamaParseInstalled = true →
       pyTruthyStr env.llamaCloudApiKey = true →
       (parse_pdf_llamaparse env p instr).2 =
         some (env.llamaParseLoadData p instr))
    ∧ (env.fileExists p = true →
       env.llamaIndexCoreInstalled = true →
       q.isEmpty = false →
       (env.simpleLoadData p).isEmpty = false →
       createCalls (main env
         { pdf_path := p, method := Method.simple,
           query := some q, instruction := instr }).1 =
         [Event.callCreateIndexAndQuery (env.simpleLoadData p) q]) := by
  refine ⟨?_, ?_, ?_⟩
  · intro h
    simp [parse_pdf_simple, h]
  · intro h hk
    simp [parse_pdf_llamaparse, h, hk]
  · intro hf hc hq hd
    rw [main_simple_eq env _ hf rfl hc, createCalls_mainAfterParse]
    have hz : createCalls (mainHeader
        { pdf_path := p, method := Method.simple,
          query := some q, instruction := instr } ++
        (parse_pdf_simple env p).1) = [] := by
      simp [mainHeader, isCreateMarker, createCalls_parse_pdf_simple]
    rw [hz]
    simp [pyTruthyStr, pyTruthyDocs, hq, hd]

/-- Closed instance of `claim_C7_passthrough` in the fully working
world. -/
theorem claim_C7_passthrough_witness :
    (parse_pdf_simple envAllGood "data/sample.pdf").2 =
      Except.ok (envAllGood.simpleLoadData "data/sample.pdf")
    ∧ (parse_pdf_llamaparse envAllGood "data/sample.pdf" none).2 =
        some (envAllGood.llamaParseLoadData "data/sample.pdf" none)
    ∧ createCalls (main envAllGood
        { pdf_path := "data/sample.pdf", method := Method.simple,
          query := some "topics", instruction := none }).1 =
        [Event.callCreateIndexAndQuery
          (envAllGood.simpleLoadData "data/sample.pdf") "topics"] :=
  ⟨(claim_C7_passthrough envAllGood "data/sample.pdf" "topics" none).1 rfl,
   (claim_C7_passthrough envAllGood "data/sample.pdf" "topics" none).2.1 rfl rfl,
   (claim_C7_passthrough envAllGood "data/sample.pdf" "topics" none).2.2
     rfl rfl rfl rfl⟩

/-- C8: for the simple and llamaparse methods, `create_index_and_query`
is entered exactly when the query is truthy and the parse produced a
truthy document value; in particular a `None` from
`parse_pdf_llamaparse` makes the query step silently skip — the run
still ends normally with the done print. -/
theorem claim_C8_query_condition (env : Env) (args : Args)
    (hf : env.fileExists args.pdf_path = true) :
    (args.method = Method.simple → env.llamaIndexCoreInstalled = true →
       (createCalls (main env args).1 ≠ [] ↔
         (pyTruthyStr args.query = true ∧
          (env.simpleLoadData args.pdf_path).isEmpty = false)))
    ∧ (args.method = Method.llamaparse →
       (createCalls (main env args).1 ≠ [] ↔
         (pyTruthyStr args.query = true ∧
          pyTruthyDocs (parse_pdf_llamaparse env args.pdf_path
            args.instruction).2 = true)))
    ∧ (args.method = Method.llamaparse →
       (parse_pdf_llamaparse env args.pdf_path args.instruction).2 = none →
       createCalls (main env args).1 = []
       ∧ (main env args).2 = Except.ok ()
       ∧ Event.print "\n✅ Done!" ∈ (main env args).1) := by
  refine ⟨?_, ?_, ?_⟩
  · intro hm hc
    rw [main_simple_eq env args hf hm hc, createCalls_mainAfterParse]
    have hz : createCalls (mainHeader args ++
        (parse_pdf_simple env args.pdf_path).1) = [] := by
      simp [mainHeader, isCreateMarker, createCalls_parse_pdf_simple]
    rw [hz]
    cases hq : pyTruthyStr args.query <;>
      cases hd : (env.simpleLoadData args.pdf_path).isEmpty <;>
        simp [pyTruthyDocs, hq, hd]
  · intro hm
    rw [main_llama_eq env args hf hm, createCalls_mainAfterParse]
    have hz : createCalls (mainHeader args ++
        (parse_pdf_llamaparse env args.pdf_path args.instruction).1) = [] := by
      simp [mainHeader, isCreateMarker, createCalls_parse_pdf_llamaparse]
    rw [hz]
    cases hq : pyTruthyStr args.query <;>
      cases hd : pyTruthyDocs
        (parse_pdf_llamaparse env args.pdf_path args.instruction).2 <;>
        simp [hq, hd]
  · intro hm hnone
    rw [main_llama_eq env args hf hm]
    have hdocs : pyTruthyDocs
        (parse_pdf_llamaparse env args.pdf_path args.instruction).2 = false := by
      rw [hnone]
      rfl
    refine ⟨?_, ?_, ?_⟩ <;>
      simp [mainAfterParse, hdocs, mainHeader, isCreateMarker,
        createCalls_parse_pdf_llamaparse]

/-- Closed instance of `claim_C8_query_condition`: with
`LLAMA_CLOUD_API_KEY` unset, a llamaparse run with a query skips the
query step silently and still completes. -/
theorem claim_C8_query_condition_witness :
    envNoLlamaKey.fileExists "data/sample.pdf" = true
    ∧ (parse_pdf_llamaparse envNoLlamaKey "data/sample.pdf" none).2 = none
    ∧ (createCalls (main envNoLlamaKey
        { pdf_path := "data/sample.pdf", method := Method.llamaparse,
          query := some "topics", instruction := none }).1 = []
      ∧ (main envNoLlamaKey
          { pdf_path := "data/sample.pdf", method := Method.llamaparse,
            query := some "topics", instruction := none }).2 = Except.ok ()
      ∧ Event.print "\n✅ Done!" ∈ (main envNoLlamaKey
          { pdf_path := "data/sample.pdf", method := Method.llamaparse,
            query := some "topics", instruction := none }).1) :=
  ⟨rfl, rfl,
   (claim_C8_query_condition envNoLlamaKey
     { pdf_path := "data/sample.pdf", method := Method.llamaparse,
       query := some "topics", instruction := none } rfl).2.2 rfl rfl⟩

/-- C9: `compare_parsers` prints the comparison summary (with both page
counts) exactly when both parsers returned truthy document lists;
otherwise the two individual parser traces are emitted and nothing else
follows them. -/
theorem claim_C9_summary (env : Env) (p : String)
    (hc : env.llamaIndexCoreInstalled = true) :
    ((env.simpleLoadData p).isEmpty = false ∧
       pyTruthyDocs (parse_pdf_llamaparse env p (some compareInstruction)).2 =
         true →
       (compare_parsers env p).1 =
         compareHeader p ++ (parse_pdf_simple env p).1
           ++ [Event.print "\n2️⃣  LlamaParse Output:"]
           ++ (parse_pdf_llamaparse env p (some compareInstruction)).1
           ++ summaryEvents (env.simpleLoadData p).length
               (((parse_pdf_llamaparse env p (some compareInstruction)).2.getD
                   []).length))
    ∧ (¬((env.simpleLoadData p).isEmpty = false ∧
         pyTruthyDocs (parse_pdf_llamaparse env p (some compareInstruction)).2 =
           true) →
       (compare_parsers env p).1 =
         compareHeader p ++ (parse_pdf_simple env p).1
           ++ [Event.print "\n2️⃣  LlamaParse Output:"]
           ++ (parse_pdf_llamaparse env p (some compareInstruction)).1) := by
  rcases hl : parse_pdf_llamaparse env p (some compareInstruction)
    with ⟨ev2, ldocs⟩
  constructor
  · rintro ⟨hd, ht⟩
    have ht2 : pyTruthyDocs ldocs = true := ht
    simp [compare_parsers, parse_pdf_simple, hc, hl, hd, ht2]
  · intro h
    rw [not_and_or] at h
    rcases h with h | h
    · have hd : (env.simpleLoadData p).isEmpty = true := by
        simpa using h
      simp [compare_parsers, parse_pdf_simple, hc, hl, hd]
    · have ht : pyTruthyDocs ldocs = false := by
        simpa using h
      simp [compare_parsers, parse_pdf_simple, hc, hl, ht]

/-- Closed instance of `claim_C9_summary`: in the fully working world
both lists are nonempty and the summary follows the two parser
traces. -/
theorem claim_C9_summary_witness :
    ((envAllGood.simpleLoadData "data/sample.pdf").isEmpty = false ∧
      pyTruthyDocs (parse_pdf_llamaparse envAllGood "data/sample.pdf"
        (some compareInstruction)).2 = true)
    ∧ (compare_parsers envAllGood "data/sample.pdf").1 =
        compareHeader "data/sample.pdf"
          ++ (parse_pdf_simple envAllGood "data/sample.pdf").1
          ++ [Event.print "\n2️⃣  LlamaParse Output:"]
          ++ (parse_pdf_llamaparse envAllGood "data/sample.pdf"
              (some compareInstruction)).1
          ++ summaryEvents
              (envAllGood.simpleLoadData "data/sample.pdf").length
              (((parse_pdf_llamaparse envAllGood "data/sample.pdf"
                  (some compareInstruction)).2.getD []).length) :=
  ⟨⟨rfl, rfl⟩,
   (claim_C9_summary envAllGood "data/sample.pdf" rfl).1 ⟨rfl, rfl⟩⟩

end PdfParserExample
